import Mathlib

/-!
# FleetLink booking backend — shallow embedding and verification

This file embeds the booking/availability engine of the FleetLink backend
(Node.js/Express/Mongoose) into Lean 4 and proves the spec's claims about it.

Embedding conventions:
* instants (JS `Date`) are rationals measured in milliseconds;
* durations are rationals measured in hours;
* the Mongo collections are plain Lean lists (`List Vehicle`, `List Booking`);
* JS `parseInt(s, 10)` is modelled faithfully (leading whitespace, optional
  sign, longest digit prefix, `NaN` as `none`);
* fallible operations return `Except`; each `AppError` throw site of the
  service layer is mapped to a dedicated `SvcErr` constructor, and plain
  `Error`s that the service's `catch` re-wraps as generic 500s map to
  `SvcErr.internalError`.
-/

deriving instance DecidableEq for Except

namespace FleetLink

/-- Booking status enum from the `bookingSchema` (`models/Booking.js`). -/
inductive Status where
  | pending
  | confirmed
  | in_progress
  | completed
  | cancelled
deriving DecidableEq, Repr

/-- Vehicle record (`models/Vehicle.js`), restricted to the fields the
booking/availability engine reads.  `createdAt` is the Mongoose timestamp. -/
structure Vehicle where
  id : Nat
  name : String
  capacityKg : Int
  tyres : Int
  vehicleType : String
  isActive : Bool
  createdAt : ℚ
deriving DecidableEq, Repr

/-- Booking record (`models/Booking.js`). -/
structure Booking where
  id : Nat
  vehicleId : Nat
  customerId : String
  fromPincode : String
  toPincode : String
  startTime : ℚ
  endTime : ℚ
  estimatedRideDurationHours : ℚ
  status : Status
  estimatedCost : Option ℚ
  actualStartTime : Option ℚ
  actualEndTime : Option ℚ
  notes : Option String
deriving DecidableEq, Repr

/-! ## JavaScript number parsing (`parseInt(s, 10)`) -/

/-- Whitespace characters skipped by JS `parseInt`. -/
def isJsWhitespace (c : Char) : Bool :=
  c = ' ' || c = '\t' || c = '\n' || c = '\r'

/-- Value of a digit string, most significant digit first. -/
def digitsToNat (l : List Char) : Nat :=
  l.foldl (fun a c => 10 * a + (c.toNat - 48)) 0

/-- Longest digit prefix of `l`, or `none` when there is no leading digit
(JS `NaN`). -/
def parseDigits (l : List Char) : Option Nat :=
  let ds := l.takeWhile Char.isDigit
  if ds.isEmpty then none else some (digitsToNat ds)

/-- JS `parseInt(s, 10)`: skip leading whitespace, read an optional sign and
the longest digit prefix; `none` models `NaN`. -/
def jsParseInt (s : String) : Option Int :=
  match s.data.dropWhile isJsWhitespace with
  | [] => none
  | c :: rest =>
    if c = '+' then (parseDigits rest).map (fun n => (n : Int))
    else if c = '-' then (parseDigits rest).map (fun n => -(n : Int))
    else (parseDigits (c :: rest)).map (fun n => (n : Int))

/-! ## `utils/timeUtils.js` -/

/-- Error kinds thrown by the duration utilities: the spec calls the pincode
validation failure `InvalidLocationCode` and a non-positive duration
`InvalidDuration`. -/
inductive DurErr where
  | invalidLocationCode
  | invalidDuration
deriving DecidableEq, Repr

/-- `calculateEstimatedDuration(fromPincode, toPincode)`:
`parseInt` both codes, fail unless both parsed values lie in
`[100000, 999999]`, then `Math.max(Math.abs(to - from) % 24, 0.5)`. -/
def calculateEstimatedDuration (fromPincode toPincode : String) : Except DurErr ℚ :=
  match jsParseInt fromPincode, jsParseInt toPincode with
  | some f, some t =>
    if f < 100000 || f > 999999 || t < 100000 || t > 999999 then
      .error .invalidLocationCode
    else
      .ok (max ((((t - f).natAbs % 24 : ℕ) : ℚ)) (1/2))
  | _, _ => .error .invalidLocationCode

/-- `calculateEndTime(startTime, durationHours)`: fails for a non-positive
duration, otherwise adds `durationHours` (converted to milliseconds). -/
def calculateEndTime (startTime durationHours : ℚ) : Except DurErr ℚ :=
  if durationHours ≤ 0 then .error .invalidDuration
  else .ok (startTime + durationHours * 3600000)

/-- Caller-supplied modifiers of `calculateEnhancedDuration`. -/
structure DurationModifiers where
  vehicleType : Option String := none
  trafficFactor : Option ℚ := none
  includeLoadingTime : Bool := false
deriving Repr

/-- The `vehicleFactors` lookup table;
`vehicleFactors[options.vehicleType] || 1.0` yields `1` for any category not
in the table (and for a missing category). -/
def vehicleFactor (vt : Option String) : ℚ :=
  match vt with
  | some "motorcycle" => 4/5
  | some "pickup" => 1
  | some "van" => 11/10
  | some "truck" => 13/10
  | some "trailer" => 3/2
  | some "other" => 1
  | _ => 1

/-- JS `Math.round(q * 100) / 100` (round half up). -/
def jsRound2 (q : ℚ) : ℚ := ((⌊q * 100 + 1/2⌋ : ℤ) : ℚ) / 100

/-- `calculateEnhancedDuration(fromPincode, toPincode, options)`:
base estimate × vehicle-type factor, × traffic factor
(`options.trafficFactor || 1.2`, applied only when inside `[1, 3]`),
plus `max(min(base * 0.1, 2), 0.5)` when loading time is requested,
rounded to 2 decimals. -/
def calculateEnhancedDuration (fromPincode toPincode : String)
    (opts : DurationModifiers) : Except DurErr ℚ :=
  match calculateEstimatedDuration fromPincode toPincode with
  | .error e => .error e
  | .ok base =>
    let afterVehicle := base * vehicleFactor opts.vehicleType
    -- JS: `options.trafficFactor || 1.2` — a supplied 0 is falsy.
    let traffic : ℚ :=
      match opts.trafficFactor with
      | some v => if v = 0 then 6/5 else v
      | none => 6/5
    let afterTraffic := if 1 ≤ traffic ∧ traffic ≤ 3 then afterVehicle * traffic else afterVehicle
    let afterLoading :=
      if opts.includeLoadingTime then afterTraffic + max (min (base * (1/10)) 2) (1/2)
      else afterTraffic
    .ok (jsRound2 afterLoading)

/-! ## `models/Booking.js` — statics, instance methods, save pipeline -/

/-- `bookingSchema.statics.findOverlappingBookings(vehicleId, startTime,
endTime, excludeBookingId)`: bookings of the vehicle whose status is not in
`['cancelled', 'completed']` and whose `[startTime, endTime)` interval
satisfies `startTime < endTime ∧ endTime > startTime` against the query
window, minus the excluded booking when one is given. -/
def findOverlappingBookings (store : List Booking) (vehicleId : Nat)
    (startTime endTime : ℚ) (excludeBookingId : Option Nat) : List Booking :=
  store.filter fun b =>
    decide (b.vehicleId = vehicleId) &&
    decide (b.status ≠ Status.cancelled) &&
    decide (b.status ≠ Status.completed) &&
    decide (b.startTime < endTime) &&
    decide (b.endTime > startTime) &&
    (match excludeBookingId with
     | some eid => decide (b.id ≠ eid)
     | none => true)

/-- `bookingSchema.methods.canBeCancelled()`: status is `pending` or
`confirmed` and the scheduled start is strictly more than one hour
(3600000 ms) after `now`. -/
def canBeCancelled (b : Booking) (now : ℚ) : Bool :=
  decide (b.status = Status.pending ∨ b.status = Status.confirmed) &&
  decide (b.startTime > now + 3600000)

/-- JS `s.padStart(6, '0')` used by the pre-save normalization hook. -/
def jsPadStart6 (s : String) : String :=
  if s.length ≥ 6 then s else String.mk (List.replicate (6 - s.length) '0' ++ s.data)

/-- Exactly six decimal digits — the `/^\d\x7b6\x7d$/` schema regex on
pincodes. -/
def isSixDigits (s : String) : Bool :=
  decide (s.length = 6) && s.data.all Char.isDigit

/-- Mongoose schema validators of `bookingSchema` that `save()` runs before
the user pre-save hooks: pincode regexes, the 5-minute past-start buffer,
`endTime > startTime`, the duration range `[0.1, 168]`, non-negative cost,
customer-id length `[1, 100]`, notes max length, and
`actualEndTime ≥ actualStartTime`. -/
def bookingSchemaValid (b : Booking) (now : ℚ) : Bool :=
  isSixDigits b.fromPincode &&
  isSixDigits b.toPincode &&
  decide (b.startTime ≥ now - 300000) &&
  decide (b.endTime > b.startTime) &&
  decide ((1 : ℚ)/10 ≤ b.estimatedRideDurationHours) &&
  decide (b.estimatedRideDurationHours ≤ 168) &&
  (match b.estimatedCost with
   | some c => decide ((0 : ℚ) ≤ c)
   | none => true) &&
  decide (1 ≤ b.customerId.length) &&
  decide (b.customerId.length ≤ 100) &&
  (match b.notes with
   | some n => decide (n.length ≤ 1000)
   | none => true) &&
  (match b.actualStartTime, b.actualEndTime with
   | some s, some e => decide (s ≤ e)
   | _, _ => true)

/-- Error kinds of the service layer.  Each constructor corresponds to one
`AppError` throw site; `internalError` stands for any plain `Error`
re-wrapped by the service `catch` blocks as a generic 500 (including
Mongoose validation errors and errors raised inside pre-save hooks). -/
inductive SvcErr where
  | vehicleNotFound
  | vehicleInactive
  | bookingConflict
  | bookingNotFound
  | invalidStatusTransition (s t : Status)
  | notCancellable
  | notDeletable
  | internalError
deriving DecidableEq, Repr

/-- `Vehicle.findById`. -/
def findVehicle (vehicles : List Vehicle) (vid : Nat) : Option Vehicle :=
  vehicles.find? fun v => decide (v.id = vid)

/-- `Booking.findById`. -/
def findBooking (store : List Booking) (bid : Nat) : Option Booking :=
  store.find? fun b => decide (b.id = bid)

/-- The read/validate part of `booking.save()`: Mongoose schema validation,
the normalization pre-save hook (`padStart` on the pincodes), and the
business pre-save hook (vehicle exists and is active, no overlapping
booking excluding the document itself, skipped for cancelled documents).
All reads are against `store`; the insert itself is separate — every await
inside `save()` is a scheduling point. -/
def saveCheckPhase (vehicles : List Vehicle) (store : List Booking)
    (b : Booking) (now : ℚ) : Except SvcErr Booking :=
  if ¬ bookingSchemaValid b now then .error .internalError
  else
    let b := { b with fromPincode := jsPadStart6 b.fromPincode,
                      toPincode := jsPadStart6 b.toPincode }
    if b.status = Status.cancelled then .ok b
    else
      match findVehicle vehicles b.vehicleId with
      | none => .error .internalError
      | some v =>
        if ¬ v.isActive then .error .internalError
        else if (findOverlappingBookings store b.vehicleId b.startTime b.endTime (some b.id)).isEmpty
        then .ok b
        else .error .internalError

/-! ## `services/bookingService.js` -/

/-- The `bookingData` accepted by `BookingService.createBooking`.  A
caller-supplied `status` is spread into the document first and then
overridden. -/
structure BookingRequest where
  vehicleId : Nat
  customerId : String
  fromPincode : String
  toPincode : String
  startTime : ℚ
  endTime : Option ℚ := none
  estimatedRideDurationHours : Option ℚ := none
  estimatedCost : Option ℚ := none
  status : Option Status := none
  notes : Option String := none
deriving Repr

/-- `estimatedRideDurationHours || calculateEstimatedDuration(...)`:
a supplied duration of `0` is falsy in JS and falls through to the
estimator. -/
def resolveDuration (req : BookingRequest) : Except DurErr ℚ :=
  match req.estimatedRideDurationHours with
  | some d => if d = 0 then calculateEstimatedDuration req.fromPincode req.toPincode else .ok d
  | none => calculateEstimatedDuration req.fromPincode req.toPincode

/-- `endTime || calculateEndTime(startTime, finalDuration)`.  A supplied
`Date` is always truthy. -/
def resolveEndTime (req : BookingRequest) (finalDuration : ℚ) : Except DurErr ℚ :=
  match req.endTime with
  | some e => .ok e
  | none => calculateEndTime req.startTime finalDuration

/-- The read/check part of `BookingService.createBooking`: load the vehicle
(`VehicleNotFound` / `VehicleInactive`), resolve duration and end time,
check `findOverlappingBookings` (`BookingConflict`), and build the document
to be saved with `status: 'confirmed'` overriding any caller-supplied
status. -/
def createCheckPhase (vehicles : List Vehicle) (store : List Booking)
    (req : BookingRequest) (newId : Nat) : Except SvcErr Booking :=
  match findVehicle vehicles req.vehicleId with
  | none => .error .vehicleNotFound
  | some v =>
    if ¬ v.isActive then .error .vehicleInactive
    else
      match resolveDuration req with
      | .error _ => .error .internalError
      | .ok finalDuration =>
        match resolveEndTime req finalDuration with
        | .error _ => .error .internalError
        | .ok finalEndTime =>
          if ¬ (findOverlappingBookings store req.vehicleId req.startTime finalEndTime none).isEmpty
          then .error .bookingConflict
          else .ok
            { id := newId
              vehicleId := req.vehicleId
              customerId := req.customerId
              fromPincode := req.fromPincode
              toPincode := req.toPincode
              startTime := req.startTime
              endTime := finalEndTime
              estimatedRideDurationHours := finalDuration
              status := Status.confirmed
              estimatedCost := req.estimatedCost
              actualStartTime := none
              actualEndTime := none
              notes := req.notes }

/-- All reads and validations of one `createBooking` call against a fixed
store snapshot: the service check phase followed by the `save()` check
phase. -/
def runCreateChecks (vehicles : List Vehicle) (store : List Booking)
    (req : BookingRequest) (newId : Nat) (now : ℚ) : Except SvcErr Booking :=
  match createCheckPhase vehicles store req newId with
  | .error e => .error e
  | .ok b => saveCheckPhase vehicles store b now

/-- `BookingService.createBooking`, sequential execution: the checks and
the insert run back to back with no interleaved writer.  Returns the
service result together with the store after the call (unchanged on every
failure). -/
def createBooking (vehicles : List Vehicle) (store : List Booking)
    (req : BookingRequest) (newId : Nat) (now : ℚ) :
    Except SvcErr Booking × List Booking :=
  match runCreateChecks vehicles store req newId now with
  | .error e => (.error e, store)
  | .ok b => (.ok b, store ++ [b])

/-- Two concurrent `createBooking` calls under the event-loop schedule in
which every read of both calls (the service-level conflict check and the
pre-save hook re-check each sit behind an `await`) resolves against the
initial store before either insert commits.  Each successful call then
appends its booking. -/
def racedCreatePair (vehicles : List Vehicle) (store : List Booking)
    (req1 req2 : BookingRequest) (id1 id2 : Nat) (now : ℚ) :
    Except SvcErr Booking × Except SvcErr Booking × List Booking :=
  let r1 := runCreateChecks vehicles store req1 id1 now
  let r2 := runCreateChecks vehicles store req2 id2 now
  let store1 := match r1 with
    | .ok b => store ++ [b]
    | .error _ => store
  let store2 := match r2 with
    | .ok b => store1 ++ [b]
    | .error _ => store1
  (r1, r2, store2)

/-- The `validTransitions` table of `BookingService.updateBookingStatus`. -/
def validTransitions : Status → List Status
  | Status.pending => [Status.confirmed, Status.cancelled]
  | Status.confirmed => [Status.in_progress, Status.cancelled]
  | Status.in_progress => [Status.completed, Status.cancelled]
  | Status.completed => []
  | Status.cancelled => []

/-- The `updateFields` written by `findByIdAndUpdate`: the new status,
`notes` only when truthy (the empty string is falsy in JS), and the
actual-time stamps when entering `in_progress` / `completed` with the stamp
still unset. -/
def applyStatusUpdate (b : Booking) (status : Status) (notes : Option String)
    (now : ℚ) : Booking :=
  { b with
    status := status
    notes := match notes with
      | some n => if n = "" then b.notes else some n
      | none => b.notes
    actualStartTime :=
      if status = Status.in_progress ∧ b.actualStartTime = none then some now
      else b.actualStartTime
    actualEndTime :=
      if status = Status.completed ∧ b.actualEndTime = none then some now
      else b.actualEndTime }

/-- `findByIdAndUpdate` on the booking collection. -/
def replaceBooking (store : List Booking) (b' : Booking) : List Booking :=
  store.map fun b => if b.id = b'.id then b' else b

/-- `BookingService.updateBookingStatus(bookingId, { status, notes })`:
look the booking up, enforce the transition table
(`InvalidStatusTransition`), enforce `canBeCancelled` when cancelling
(`NotCancellable`), then update.  `runValidators` re-checks the updated
paths, of which only the notes max length can fail. -/
def updateBookingStatus (store : List Booking) (bid : Nat) (status : Status)
    (notes : Option String) (now : ℚ) : Except SvcErr Booking × List Booking :=
  match findBooking store bid with
  | none => (.error .bookingNotFound, store)
  | some b =>
    if ¬ status ∈ validTransitions b.status then
      (.error (.invalidStatusTransition b.status status), store)
    else if status = Status.cancelled ∧ ¬ canBeCancelled b now then
      (.error .notCancellable, store)
    else
      let notesOk : Bool := match notes with
        | some n => decide (n.length ≤ 1000)
        | none => true
      if ¬ notesOk then
        (.error .internalError, store)
      else
        let b' := applyStatusUpdate b status notes now
        (.ok b', replaceBooking store b')

/-- `BookingService.cancelBooking(bookingId, reason)`: look the booking up,
require `canBeCancelled` (`NotCancellable`), then delegate to
`updateBookingStatus` with status `cancelled` and the reason as notes. -/
def cancelBooking (store : List Booking) (bid : Nat) (reason : String)
    (now : ℚ) : Except SvcErr Booking × List Booking :=
  match findBooking store bid with
  | none => (.error .bookingNotFound, store)
  | some b =>
    if ¬ canBeCancelled b now then (.error .notCancellable, store)
    else updateBookingStatus store bid Status.cancelled (some reason) now

/-! ## `services/vehicleService.js` — `findAvailableVehicles` -/

/-- The search parameters of `VehicleService.findAvailableVehicles`. -/
structure AvailParams where
  capacityRequired : Int
  fromPincode : String
  toPincode : String
  startTime : ℚ
  vehicleType : Option String := none
  includeEnhancedDuration : Bool := false
deriving Repr

/-- One element of the `availableVehicles` array: the vehicle enriched with
the duration figures. -/
structure AvailEntry where
  vehicle : Vehicle
  estimatedRideDurationHours : ℚ
  enhancedDurationHours : Option ℚ
  estimatedEndTime : ℚ
deriving DecidableEq, Repr

/-- The object returned by `findAvailableVehicles`.  The early return taken
when no vehicle meets the capacity filter carries a `message` and has *no*
`totalAvailable` / `totalSuitable` fields (modelled as `none`). -/
structure AvailResult where
  availableVehicles : List AvailEntry
  estimatedRideDurationHours : ℚ
  totalAvailable : Option Nat
  totalSuitable : Option Nat
  message : Option String
deriving DecidableEq, Repr

/-- The sort comparator of `findAvailableVehicles`:
`a.capacityKg - b.capacityKg`, ties broken by `createdAt` descending. -/
def availLe (a b : AvailEntry) : Bool :=
  decide (a.vehicle.capacityKg < b.vehicle.capacityKg) ||
  (decide (a.vehicle.capacityKg = b.vehicle.capacityKg) &&
   decide (b.vehicle.createdAt ≤ a.vehicle.createdAt))

/-- The vehicle query of `findAvailableVehicles`: active, capacity at least
`capacityRequired`, and the optional type filter. -/
def isSuitable (p : AvailParams) (v : Vehicle) : Bool :=
  decide (p.capacityRequired ≤ v.capacityKg) && v.isActive &&
  (match p.vehicleType with
   | some t => decide (v.vehicleType = t)
   | none => true)

/-- `VehicleService.findAvailableVehicles(searchParams)`: compute the
duration and end time, filter suitable vehicles, early-return when none
qualifies, keep the vehicles with no overlapping booking, and sort by
capacity ascending with newest-first ties (JS `Array.prototype.sort` is
stable; modelled by `mergeSort` with the comparator's `le`). -/
def findAvailableVehicles (vehicles : List Vehicle) (store : List Booking)
    (p : AvailParams) : Except SvcErr AvailResult :=
  match calculateEstimatedDuration p.fromPincode p.toPincode with
  | .error _ => .error .internalError
  | .ok dur =>
    match calculateEndTime p.startTime dur with
    | .error _ => .error .internalError
    | .ok endTime =>
      let suitable := vehicles.filter (isSuitable p)
      if suitable.isEmpty then
        .ok { availableVehicles := []
              estimatedRideDurationHours := dur
              totalAvailable := none
              totalSuitable := none
              message := some "No vehicles found matching capacity requirements" }
      else
        let avail := suitable.filterMap fun v =>
          if (findOverlappingBookings store v.id p.startTime endTime none).isEmpty then
            some { vehicle := v
                   estimatedRideDurationHours := dur
                   enhancedDurationHours :=
                     if p.includeEnhancedDuration then
                       -- the base estimate above already succeeded, so this
                       -- computation cannot fail
                       (calculateEnhancedDuration p.fromPincode p.toPincode
                         { vehicleType := some v.vehicleType
                           trafficFactor := some (6/5)
                           includeLoadingTime := true }).toOption
                     else none
                   estimatedEndTime := endTime }
          else none
        let sorted := avail.mergeSort availLe
        .ok { availableVehicles := sorted
              estimatedRideDurationHours := dur
              totalAvailable := some sorted.length
              totalSuitable := some suitable.length
              message := none }

/-! ## Concrete fixtures used by witnesses and counterexamples -/

/-- An active 5000 kg truck, id 1. -/
def truckA : Vehicle :=
  { id := 1, name := "Truck A", capacityKg := 5000, tyres := 6,
    vehicleType := "truck", isActive := true, createdAt := 0 }

/-- The same truck, deactivated. -/
def truckAInactive : Vehicle :=
  { truckA with isActive := false }

/-- An active 3000 kg van, id 2, created later than `truckA`. -/
def vanB : Vehicle :=
  { id := 2, name := "Van B", capacityKg := 3000, tyres := 4,
    vehicleType := "van", isActive := true, createdAt := 5 }

/-- A single active 5000 kg truck, id 1. -/
def fleetOne : List Vehicle := [truckA]

/-- The same fleet with the vehicle deactivated. -/
def fleetOneInactive : List Vehicle := [truckAInactive]

/-- Booking request for vehicle 1, window `[2h, 4h)`. -/
def reqWinA : BookingRequest :=
  { vehicleId := 1, customerId := "c1", fromPincode := "110001",
    toPincode := "110002", startTime := 7200000, endTime := some 14400000,
    estimatedRideDurationHours := some 2 }

/-- Booking request for vehicle 1, window `[2.5h, 5h)` — overlaps `reqWinA`. -/
def reqWinB : BookingRequest :=
  { vehicleId := 1, customerId := "c2", fromPincode := "110001",
    toPincode := "110002", startTime := 9000000, endTime := some 18000000,
    estimatedRideDurationHours := some (5/2) }

/-- A `completed` booking on vehicle 1 covering `[0h, 10h)`. -/
def bkCompleted : Booking :=
  { id := 1, vehicleId := 1, customerId := "c0", fromPincode := "110001",
    toPincode := "110002", startTime := 0, endTime := 36000000,
    estimatedRideDurationHours := 10, status := Status.completed,
    estimatedCost := none, actualStartTime := none, actualEndTime := none,
    notes := none }

/-- A `confirmed` booking on vehicle 1 covering `[0h, 10h)`. -/
def bkConfirmed : Booking :=
  { id := 1, vehicleId := 1, customerId := "c0", fromPincode := "110001",
    toPincode := "110002", startTime := 0, endTime := 36000000,
    estimatedRideDurationHours := 10, status := Status.confirmed,
    estimatedCost := none, actualStartTime := none, actualEndTime := none,
    notes := none }

/-- A `confirmed` booking on vehicle 1 starting 30 minutes from time 0. -/
def bkSoon : Booking :=
  { id := 1, vehicleId := 1, customerId := "c0", fromPincode := "110001",
    toPincode := "110002", startTime := 1800000, endTime := 5400000,
    estimatedRideDurationHours := 1, status := Status.confirmed,
    estimatedCost := none, actualStartTime := none, actualEndTime := none,
    notes := none }

/-- Request for vehicle 1 with window `[5h, 15h)`, overlapping `bkCompleted`
and `bkConfirmed`. -/
def reqWinC : BookingRequest :=
  { vehicleId := 1, customerId := "c1", fromPincode := "110001",
    toPincode := "110002", startTime := 18000000, endTime := some 54000000,
    estimatedRideDurationHours := some 1 }

/-- Request with a caller-supplied duration of `0` hours. -/
def reqZeroDur : BookingRequest :=
  { vehicleId := 1, customerId := "c1", fromPincode := "110001",
    toPincode := "110002", startTime := 7200000, endTime := some 10800000,
    estimatedRideDurationHours := some 0 }

/-- Availability search: 1000 kg needed, same-pincode route, start at 0. -/
def availReq : AvailParams :=
  { capacityRequired := 1000, fromPincode := "110001", toPincode := "110001",
    startTime := 0 }

/-- The booking that the first raced call (`reqWinA`) inserts. -/
def raceBk1 : Booking :=
  { id := 1, vehicleId := 1, customerId := "c1", fromPincode := "110001",
    toPincode := "110002", startTime := 7200000, endTime := 14400000,
    estimatedRideDurationHours := 2, status := Status.confirmed,
    estimatedCost := none, actualStartTime := none, actualEndTime := none,
    notes := none }

/-- The booking that the second raced call (`reqWinB`) inserts. -/
def raceBk2 : Booking :=
  { id := 2, vehicleId := 1, customerId := "c2", fromPincode := "110001",
    toPincode := "110002", startTime := 9000000, endTime := 18000000,
    estimatedRideDurationHours := 5/2, status := Status.confirmed,
    estimatedCost := none, actualStartTime := none, actualEndTime := none,
    notes := none }

/-- The booking created from `reqWinC`. -/
def bkFromReqC : Booking :=
  { id := 2, vehicleId := 1, customerId := "c1", fromPincode := "110001",
    toPincode := "110002", startTime := 18000000, endTime := 54000000,
    estimatedRideDurationHours := 1, status := Status.confirmed,
    estimatedCost := none, actualStartTime := none, actualEndTime := none,
    notes := none }

/-- The booking created from `reqZeroDur`: the zero duration was discarded
and re-estimated as 1 hour. -/
def bkFromZeroDur : Booking :=
  { id := 2, vehicleId := 1, customerId := "c1", fromPincode := "110001",
    toPincode := "110002", startTime := 7200000, endTime := 10800000,
    estimatedRideDurationHours := 1, status := Status.confirmed,
    estimatedCost := none, actualStartTime := none, actualEndTime := none,
    notes := none }

/-- Numeric value of a string of decimal digits (claim-side helper used to
state what a "valid 6-digit location code" denotes). -/
def pinVal (s : String) : Nat := digitsToNat s.data

/-- A valid 6-digit location code in the sense of the spec: exactly six
decimal digits whose value lies in `[100000, 999999]`. -/
def IsValidPincode (s : String) : Prop :=
  s.length = 6 ∧ s.data.all Char.isDigit = true ∧ 100000 ≤ pinVal s ∧ pinVal s ≤ 999999

instance (s : String) : Decidable (IsValidPincode s) := by
  unfold IsValidPincode; infer_instance

/-- The validity test the *code* actually applies to one location code:
`parseInt` succeeds and the parsed value lies in `[100000, 999999]`. -/
def jsParsedInRange (s : String) : Bool :=
  match jsParseInt s with
  | some v => decide (100000 ≤ v) && decide (v ≤ 999999)
  | none => false

/-- The loading-time term of `calculateEnhancedDuration`, `0` when loading
time is not requested. -/
def loadTerm (opts : DurationModifiers) (base : ℚ) : ℚ :=
  if opts.includeLoadingTime then max (min (base * (1/10)) 2) (1/2) else 0

/-- No-overlap relation between two bookings used to state the P1
invariant: same-vehicle bookings that are both conflict candidates
(status ∉ \x7bcancelled, completed\x7d) must not overlap as half-open
intervals. -/
def NoActiveOverlap (b1 b2 : Booking) : Prop :=
  b1.vehicleId = b2.vehicleId → b1.status ≠ Status.cancelled →
  b1.status ≠ Status.completed → b2.status ≠ Status.cancelled →
  b2.status ≠ Status.completed →
  ¬(b1.startTime < b2.endTime ∧ b1.endTime > b2.startTime)

/-- Two active vehicles: the 5000 kg truck and the newer 3000 kg van. -/
def fleetTwo : List Vehicle := [truckA, vanB]

/-- The booking `updateBookingStatus` produces when moving `bkConfirmed`
into `in_progress` at time 0: only the status and the actual-start stamp
change. -/
def bkInProgressAfter : Booking :=
  { bkConfirmed with status := Status.in_progress, actualStartTime := some 0 }

/-- The availability result for `fleetTwo`, an empty store and `availReq`:
both vehicles are suitable and available; the van sorts first (smaller
capacity). -/
def availTwoResult : AvailResult :=
  { availableVehicles :=
      [{ vehicle := vanB, estimatedRideDurationHours := 1/2,
         enhancedDurationHours := none, estimatedEndTime := 1800000 },
       { vehicle := truckA, estimatedRideDurationHours := 1/2,
         enhancedDurationHours := none, estimatedEndTime := 1800000 }]
    estimatedRideDurationHours := 1/2
    totalAvailable := some 2
    totalSuitable := some 2
    message := none }

/-! # Theorems -/

/-! ## Helper lemmas about JS parsing -/

theorem isDigit_not_jsWhitespace {c : Char} (h : c.isDigit = true) :
    isJsWhitespace c = false := by
  simp only [isJsWhitespace, Bool.or_eq_false_iff, decide_eq_false_iff_not]
  refine ⟨⟨⟨fun hc => ?_, fun hc => ?_⟩, fun hc => ?_⟩, fun hc => ?_⟩ <;>
    subst hc <;> simp [Char.isDigit] at h

theorem isDigit_ne_plus {c : Char} (h : c.isDigit = true) : c ≠ '+' := by
  intro hc; subst hc; simp [Char.isDigit] at h

theorem isDigit_ne_minus {c : Char} (h : c.isDigit = true) : c ≠ '-' := by
  intro hc; subst hc; simp [Char.isDigit] at h

theorem takeWhile_all_digits {l : List Char} (h : l.all Char.isDigit = true) :
    l.takeWhile Char.isDigit = l := by
  induction l with
  | nil => rfl
  | cons c t ih =>
    simp only [List.all_cons, Bool.and_eq_true] at h
    simp [List.takeWhile_cons, h.1, ih h.2]

/-- On a nonempty all-digit string, JS `parseInt` returns the digit value. -/
theorem jsParseInt_of_digits {s : String} (hne : s.data ≠ [])
    (hd : s.data.all Char.isDigit = true) :
    jsParseInt s = some ((pinVal s : ℕ) : ℤ) := by
  unfold jsParseInt pinVal
  obtain ⟨c, t, he⟩ := List.exists_cons_of_ne_nil hne
  rw [he]
  have hc : c.isDigit = true := by
    rw [he] at hd
    simp only [List.all_cons, Bool.and_eq_true] at hd
    exact hd.1
  rw [List.dropWhile_cons, isDigit_not_jsWhitespace hc]
  simp only [Bool.false_eq_true, if_false]
  rw [if_neg (isDigit_ne_plus hc), if_neg (isDigit_ne_minus hc)]
  unfold parseDigits
  rw [← he, takeWhile_all_digits hd]
  simp [he]

/-- For strings satisfying the range check of `calculateEstimatedDuration`,
the function computes exactly `max(|to − from| % 24, 0.5)`. -/
theorem calculateEstimatedDuration_eq {x y : String}
    (hx : jsParseInt x = some ((pinVal x : ℕ) : ℤ))
    (hy : jsParseInt y = some ((pinVal y : ℕ) : ℤ))
    (h1 : 100000 ≤ pinVal x) (h2 : pinVal x ≤ 999999)
    (h3 : 100000 ≤ pinVal y) (h4 : pinVal y ≤ 999999) :
    calculateEstimatedDuration x y =
      .ok (max ((((pinVal y : ℤ) - (pinVal x : ℤ)).natAbs % 24 : ℕ) : ℚ) (1/2)) := by
  unfold calculateEstimatedDuration
  rw [hx, hy]
  have hcond : (decide (((pinVal x : ℕ) : ℤ) < 100000) ||
      decide (((pinVal x : ℕ) : ℤ) > 999999) ||
      decide (((pinVal y : ℕ) : ℤ) < 100000) ||
      decide (((pinVal y : ℕ) : ℤ) > 999999)) = false := by
    simp only [Bool.or_eq_false_iff, decide_eq_false_iff_not, gt_iff_lt, not_lt]
    omega
  simp only [hcond, Bool.false_eq_true, if_false]

theorem data_ne_nil_of_valid {s : String} (h : IsValidPincode s) : s.data ≠ [] := by
  have hl : s.data.length = 6 := h.1
  intro hnil
  rw [hnil] at hl
  simp at hl

unseal Rat.mul Rat.inv Rat.add Rat.sub in
/-- C6: for every pair of valid 6-digit location codes `o`, `d`,
`calculateEstimatedDuration o d = max(|int(d) − int(o)| mod 24, 0.5)`;
the function is symmetric, its value is either `0.5` or an integer in
`[1, 23]`, and `estimate("110001", "110025") = 0.5`. -/
theorem c6_estimate_formula (o d : String) (ho : IsValidPincode o)
    (hd : IsValidPincode d) :
    calculateEstimatedDuration o d =
      .ok (max ((((pinVal d : ℤ) - (pinVal o : ℤ)).natAbs % 24 : ℕ) : ℚ) (1/2)) ∧
    calculateEstimatedDuration o d = calculateEstimatedDuration d o ∧
    (calculateEstimatedDuration o d = .ok (1/2) ∨
      ∃ n : ℕ, 1 ≤ n ∧ n ≤ 23 ∧ calculateEstimatedDuration o d = .ok ((n : ℕ) : ℚ)) ∧
    calculateEstimatedDuration "110001" "110025" = .ok (1/2) := by
  have hpo := jsParseInt_of_digits (data_ne_nil_of_valid ho) ho.2.1
  have hpd := jsParseInt_of_digits (data_ne_nil_of_valid hd) hd.2.1
  have key := calculateEstimatedDuration_eq hpo hpd ho.2.2.1 ho.2.2.2 hd.2.2.1 hd.2.2.2
  have key' := calculateEstimatedDuration_eq hpd hpo hd.2.2.1 hd.2.2.2 ho.2.2.1 ho.2.2.2
  refine ⟨key, ?_, ?_, by decide⟩
  · rw [key, key', show ((pinVal d : ℤ) - (pinVal o : ℤ)).natAbs =
      ((pinVal o : ℤ) - (pinVal d : ℤ)).natAbs by rw [← Int.natAbs_neg, neg_sub]]
  · rcases Nat.eq_zero_or_pos ((((pinVal d : ℤ) - (pinVal o : ℤ)).natAbs % 24 : ℕ)) with h0 | hpos
    · left
      rw [key, h0]
      norm_num
    · right
      refine ⟨_, hpos, ?_, ?_⟩
      · have := Nat.mod_lt (((pinVal d : ℤ) - (pinVal o : ℤ)).natAbs)
          (show 0 < 24 by norm_num)
        omega
      · rw [key]
        congr 1
        refine max_eq_left ?_
        calc (1/2 : ℚ) ≤ 1 := by norm_num
        _ ≤ _ := by exact_mod_cast hpos

unseal Rat.mul Rat.inv Rat.add Rat.sub in
/-- C6 witness: the theorem instantiated at the concrete pair
`("110001", "110025")`, whose estimate is `0.5` hours. -/
theorem c6_estimate_formula_witness :
    IsValidPincode "110001" ∧ IsValidPincode "110025" ∧
    calculateEstimatedDuration "110001" "110025" = .ok (1/2) :=
  ⟨by decide, by decide,
    (c6_estimate_formula "110001" "110025" (by decide) (by decide)).2.2.2⟩

/-- C7 (amended): `calculateEstimatedDuration` fails with
`InvalidLocationCode` iff the JS-`parseInt`-based check rejects one of the
codes (parse yields `NaN` or a value outside `[100000, 999999]`); every
valid 6-digit code passes that check, but strings that are *not* six digits
can pass it too (see the counterexample). -/
theorem c7_location_validation (o d : String) :
    (calculateEstimatedDuration o d = .error DurErr.invalidLocationCode ↔
      ¬(jsParsedInRange o = true ∧ jsParsedInRange d = true)) ∧
    (∀ s, IsValidPincode s → jsParsedInRange s = true) := by
  constructor
  · unfold calculateEstimatedDuration jsParsedInRange
    cases ho : jsParseInt o with
    | none =>
      cases hd : jsParseInt d <;> simp
    | some f =>
      cases hd : jsParseInt d with
      | none => simp
      | some t =>
        simp only [Bool.and_eq_true, decide_eq_true_eq]
        split_ifs with h
        · simp only [Bool.or_eq_true, decide_eq_true_eq, gt_iff_lt] at h
          simp only [true_iff]
          omega
        · simp only [Bool.or_eq_true, decide_eq_true_eq, gt_iff_lt, not_or, not_lt] at h
          constructor
          · intro hcontra
            exact absurd hcontra (by simp)
          · intro hcontra
            exact absurd (by omega : (100000 ≤ f ∧ f ≤ 999999) ∧
              100000 ≤ t ∧ t ≤ 999999) (by tauto)
  · intro s hs
    unfold jsParsedInRange
    rw [jsParseInt_of_digits (data_ne_nil_of_valid hs) hs.2.1]
    simp only [Bool.and_eq_true, decide_eq_true_eq]
    constructor
    · exact_mod_cast hs.2.2.1
    · exact_mod_cast hs.2.2.2

/-- C7 witness: the amended theorem applied at concrete inputs — the empty
string is rejected, and `"110001"` passes the code's check. -/
theorem c7_location_validation_witness :
    jsParsedInRange "110001" = true ∧
    (calculateEstimatedDuration "" "110001" = .error DurErr.invalidLocationCode ↔
      ¬(jsParsedInRange "" = true ∧ jsParsedInRange "110001" = true)) :=
  ⟨(c7_location_validation "" "110001").2 "110001" (by decide),
    (c7_location_validation "" "110001").1⟩

/-- C8 (amended): `calculateEnhancedDuration` multiplies the base estimate
by the per-category factor (motorcycle 0.8, pickup 1.0, van 1.1, truck 1.3,
trailer 1.5, other and unknown categories 1.0), then by the traffic factor:
when none (or a falsy `0`) is supplied the default `1.2` is used, a
supplied factor inside `[1, 3]` is applied, and a nonzero factor outside
that range is ignored; the loading-time term `max(min(0.1·base, 2), 0.5)`
is added when requested; the result is rounded to 2 decimals. -/
theorem c8_enhanced_rules (o d : String) (opts : DurationModifiers) (base : ℚ)
    (hb : calculateEstimatedDuration o d = .ok base) :
    (vehicleFactor (some "motorcycle") = 4/5 ∧ vehicleFactor (some "pickup") = 1 ∧
     vehicleFactor (some "van") = 11/10 ∧ vehicleFactor (some "truck") = 13/10 ∧
     vehicleFactor (some "trailer") = 3/2 ∧ vehicleFactor (some "other") = 1 ∧
     vehicleFactor none = 1 ∧
     (∀ s : String, s ∉ ["motorcycle", "pickup", "van", "truck", "trailer", "other"] →
        vehicleFactor (some s) = 1)) ∧
    (opts.trafficFactor = none →
      calculateEnhancedDuration o d opts =
        .ok (jsRound2 (base * vehicleFactor opts.vehicleType * (6/5) + loadTerm opts base))) ∧
    (∀ t : ℚ, opts.trafficFactor = some t → t ≠ 0 → 1 ≤ t → t ≤ 3 →
      calculateEnhancedDuration o d opts =
        .ok (jsRound2 (base * vehicleFactor opts.vehicleType * t + loadTerm opts base))) ∧
    (∀ t : ℚ, opts.trafficFactor = some t → t ≠ 0 → (t < 1 ∨ 3 < t) →
      calculateEnhancedDuration o d opts =
        .ok (jsRound2 (base * vehicleFactor opts.vehicleType + loadTerm opts base))) := by
  refine ⟨⟨rfl, rfl, rfl, rfl, rfl, rfl, rfl, ?_⟩, ?_, ?_, ?_⟩
  · intro s hs
    unfold vehicleFactor
    split
    all_goals simp_all
  · intro hnone
    unfold calculateEnhancedDuration
    rw [hb, hnone]
    simp only [if_pos (show (1 : ℚ) ≤ 6/5 ∧ (6/5 : ℚ) ≤ 3 by norm_num)]
    cases hL : opts.includeLoadingTime <;> simp [loadTerm, hL]
  · intro t ht htz h1 h3
    unfold calculateEnhancedDuration
    rw [hb, ht]
    dsimp only
    have hin : (1 : ℚ) ≤ t ∧ t ≤ 3 := ⟨h1, h3⟩
    rw [if_neg htz, if_pos hin]
    cases hL : opts.includeLoadingTime <;> simp [loadTerm, hL]
  · intro t ht htz hout
    unfold calculateEnhancedDuration
    rw [hb, ht]
    dsimp only
    rw [if_neg htz, if_neg (show ¬((1 : ℚ) ≤ t ∧ t ≤ 3) by
      rcases hout with h | h
      · exact fun hc => absurd hc.1 (not_le.mpr h)
      · exact fun hc => absurd hc.2 (not_le.mpr h))]
    cases hL : opts.includeLoadingTime <;> simp [loadTerm, hL]

unseal Rat.mul Rat.inv Rat.add Rat.sub in
/-- C8 witness: the amended theorem at a concrete input — 12 h base,
truck factor 1.3, default traffic 1.2, loading time on:
`round2(12·1.3·1.2 + 1.2) = 19.92`. -/
theorem c8_enhanced_rules_witness :
    calculateEstimatedDuration "110001" "110013" = .ok 12 ∧
    calculateEnhancedDuration "110001" "110013"
        { vehicleType := some "truck", trafficFactor := none, includeLoadingTime := true } =
      .ok (jsRound2 (12 * vehicleFactor (some "truck") * (6/5) +
        loadTerm { vehicleType := some "truck", trafficFactor := none,
                   includeLoadingTime := true } 12)) ∧
    jsRound2 (12 * vehicleFactor (some "truck") * (6/5) +
      loadTerm { vehicleType := some "truck", trafficFactor := none,
                 includeLoadingTime := true } 12) = 498/25 :=
  ⟨by decide,
   (c8_enhanced_rules "110001" "110013" _ 12 (by decide)).2.1 rfl,
   by decide⟩

/-- C4: `updateBookingStatus` enforces exactly the transition table
(pending → \x7bconfirmed, cancelled\x7d; confirmed → \x7bin_progress,
cancelled\x7d; in_progress → \x7bcompleted, cancelled\x7d; completed → ∅;
cancelled → ∅): a successful update implies the requested status was in the
current status's allowed set, any pair outside the table fails with
`InvalidStatusTransition` naming both states and leaves the store
unchanged, and the terminal states allow zero transitions. -/
theorem c4_transition_closure (store : List Booking) (bid : Nat) (t : Status)
    (notes : Option String) (now : ℚ) :
    (validTransitions Status.pending = [Status.confirmed, Status.cancelled] ∧
     validTransitions Status.confirmed = [Status.in_progress, Status.cancelled] ∧
     validTransitions Status.in_progress = [Status.completed, Status.cancelled] ∧
     validTransitions Status.completed = [] ∧
     validTransitions Status.cancelled = []) ∧
    (∀ b', (updateBookingStatus store bid t notes now).1 = .ok b' →
      ∃ b, findBooking store bid = some b ∧ t ∈ validTransitions b.status) ∧
    (∀ b, findBooking store bid = some b → t ∉ validTransitions b.status →
      updateBookingStatus store bid t notes now =
        (.error (SvcErr.invalidStatusTransition b.status t), store)) := by
  refine ⟨⟨rfl, rfl, rfl, rfl, rfl⟩, ?_, ?_⟩
  · intro b' hok
    unfold updateBookingStatus at hok
    cases hfb : findBooking store bid with
    | none => rw [hfb] at hok; simp at hok
    | some b =>
      rw [hfb] at hok
      dsimp only at hok
      by_cases hmem : t ∈ validTransitions b.status
      · exact ⟨b, rfl, hmem⟩
      · rw [if_pos hmem] at hok
        simp at hok
  · intro b hfb hmem
    unfold updateBookingStatus
    rw [hfb]
    dsimp only
    rw [if_pos hmem]

unseal Rat.add Rat.mul Rat.inv Rat.sub in
/-- C4 witness: the theorem applied at a concrete store — requesting
`pending` on a `completed` booking fails with the transition error and
leaves the store unchanged. -/
theorem c4_transition_closure_witness :
    updateBookingStatus [bkCompleted] 1 Status.pending none 0 =
      (.error (SvcErr.invalidStatusTransition Status.completed Status.pending),
       [bkCompleted]) :=
  (c4_transition_closure [bkCompleted] 1 Status.pending none 0).2.2
    bkCompleted rfl (by decide)

/-- C5 (amended): cancellation succeeds only from `pending`/`confirmed`
with the start strictly more than one hour away; `cancelBooking` fails with
`NotCancellable` in every other case, and `updateBookingStatus` with target
`cancelled` fails with `NotCancellable` when the current status is
`pending`, `confirmed` or `in_progress` but the precondition fails — from
the terminal states `completed`/`cancelled`, however, it fails with
`InvalidStatusTransition`, not `NotCancellable`. -/
theorem c5_cancellation_rules (store : List Booking) (bid : Nat)
    (reason : String) (notes : Option String) (now : ℚ) :
    (∀ b', (cancelBooking store bid reason now).1 = .ok b' →
      ∃ b, findBooking store bid = some b ∧
        (b.status = Status.pending ∨ b.status = Status.confirmed) ∧
        b.startTime > now + 3600000) ∧
    (∀ b, findBooking store bid = some b → canBeCancelled b now = false →
      cancelBooking store bid reason now = (.error SvcErr.notCancellable, store)) ∧
    (∀ b, findBooking store bid = some b →
      (b.status = Status.pending ∨ b.status = Status.confirmed ∨
        b.status = Status.in_progress) →
      canBeCancelled b now = false →
      updateBookingStatus store bid Status.cancelled notes now =
        (.error SvcErr.notCancellable, store)) ∧
    (∀ b, findBooking store bid = some b →
      (b.status = Status.completed ∨ b.status = Status.cancelled) →
      updateBookingStatus store bid Status.cancelled notes now =
        (.error (SvcErr.invalidStatusTransition b.status Status.cancelled), store)) := by
  refine ⟨?_, ?_, ?_, ?_⟩
  · intro b' hok
    unfold cancelBooking at hok
    cases hfb : findBooking store bid with
    | none => rw [hfb] at hok; simp at hok
    | some b =>
      rw [hfb] at hok
      dsimp only at hok
      by_cases hcan : canBeCancelled b now = true
      · refine ⟨b, rfl, ?_⟩
        simpa [canBeCancelled, Bool.and_eq_true, decide_eq_true_eq] using hcan
      · rw [if_pos hcan] at hok
        simp at hok
  · intro b hfb hcan
    unfold cancelBooking
    rw [hfb]
    dsimp only
    rw [if_pos (show ¬ canBeCancelled b now = true by simp [hcan])]
  · intro b hfb hstat hcan
    unfold updateBookingStatus
    have hmem : Status.cancelled ∈ validTransitions b.status := by
      rcases hstat with h | h | h <;> rw [h] <;> decide
    rw [hfb]
    dsimp only
    rw [if_neg (not_not_intro hmem),
      if_pos (⟨rfl, by simp [hcan]⟩ :
        Status.cancelled = Status.cancelled ∧ ¬ canBeCancelled b now = true)]
  · intro b hfb hstat
    unfold updateBookingStatus
    have hmem : Status.cancelled ∉ validTransitions b.status := by
      rcases hstat with h | h <;> rw [h] <;> decide
    rw [hfb]
    dsimp only
    rw [if_pos hmem]

unseal Rat.add Rat.mul Rat.inv Rat.sub in
/-- C5 witness: the amended theorem at a concrete store — a confirmed
booking starting 30 minutes out cannot be cancelled. -/
theorem c5_cancellation_rules_witness :
    cancelBooking [bkSoon] 1 "Cancelled by user" 0 =
      (.error SvcErr.notCancellable, [bkSoon]) :=
  (c5_cancellation_rules [bkSoon] 1 "Cancelled by user" none 0).2.1
    bkSoon rfl (by decide)

/-- C10: a successful `updateBookingStatus` changes at most the status,
notes and actual-time stamps: the booking's `vehicleId`, `customerId`,
pincodes, scheduled times, estimated duration and cost are unchanged. -/
theorem c10_update_frame (store : List Booking) (bid : Nat) (t : Status)
    (notes : Option String) (now : ℚ) (b b' : Booking)
    (hfb : findBooking store bid = some b)
    (hok : (updateBookingStatus store bid t notes now).1 = .ok b') :
    b'.vehicleId = b.vehicleId ∧ b'.customerId = b.customerId ∧
    b'.fromPincode = b.fromPincode ∧ b'.toPincode = b.toPincode ∧
    b'.startTime = b.startTime ∧ b'.endTime = b.endTime ∧
    b'.estimatedRideDurationHours = b.estimatedRideDurationHours ∧
    b'.estimatedCost = b.estimatedCost := by
  unfold updateBookingStatus at hok
  rw [hfb] at hok
  dsimp only at hok
  split_ifs at hok
  all_goals simp at hok
  subst hok
  exact ⟨rfl, rfl, rfl, rfl, rfl, rfl, rfl, rfl⟩

unseal Rat.mul Rat.inv Rat.add Rat.sub in
/-- C10 witness: the theorem applied at a concrete store — moving
`bkConfirmed` into `in_progress` changes only the status and the
actual-start stamp. -/
theorem c10_update_frame_witness :
    bkInProgressAfter.vehicleId = bkConfirmed.vehicleId ∧
    bkInProgressAfter.customerId = bkConfirmed.customerId ∧
    bkInProgressAfter.fromPincode = bkConfirmed.fromPincode ∧
    bkInProgressAfter.toPincode = bkConfirmed.toPincode ∧
    bkInProgressAfter.startTime = bkConfirmed.startTime ∧
    bkInProgressAfter.endTime = bkConfirmed.endTime ∧
    bkInProgressAfter.estimatedRideDurationHours =
      bkConfirmed.estimatedRideDurationHours ∧
    bkInProgressAfter.estimatedCost = bkConfirmed.estimatedCost :=
  c10_update_frame [bkConfirmed] 1 Status.in_progress none 0
    bkConfirmed bkInProgressAfter rfl (by decide)

/-! ## Helper lemmas about the create pipeline -/

theorem findOverlapping_eq_nil_iff {store : List Booking} {vid : Nat}
    {s e : ℚ} :
    findOverlappingBookings store vid s e none = [] ↔
      ∀ b ∈ store, b.vehicleId = vid → b.status ≠ Status.cancelled →
        b.status ≠ Status.completed → ¬(b.startTime < e ∧ b.endTime > s) := by
  unfold findOverlappingBookings
  rw [List.filter_eq_nil_iff]
  constructor
  · intro h b hb hv hc1 hc2 hover
    exact h b hb (by simp [hv, hc1, hc2, hover.1, hover.2])
  · intro h b hb hp
    simp only [Bool.and_eq_true, decide_eq_true_eq] at hp
    exact h b hb hp.1.1.1.1.1 hp.1.1.1.1.2 hp.1.1.1.2 ⟨hp.1.1.2, hp.1.2⟩

theorem findOverlapping_not_isEmpty_iff {store : List Booking} {vid : Nat}
    {s e : ℚ} :
    ¬ (findOverlappingBookings store vid s e none).isEmpty = true ↔
      ∃ b ∈ store, b.vehicleId = vid ∧ b.status ≠ Status.cancelled ∧
        b.status ≠ Status.completed ∧ b.startTime < e ∧ b.endTime > s := by
  rw [List.isEmpty_iff, ← not_iff_not, not_not]
  rw [findOverlapping_eq_nil_iff]
  push_neg
  constructor
  · intro h b hb hv hc1 hc2 hover
    exact h b hb hv hc1 hc2 hover
  · intro h b hb hv hc1 hc2 hover
    exact h b hb hv hc1 hc2 hover

theorem saveCheckPhase_no_conflict (vehicles : List Vehicle)
    (store : List Booking) (b : Booking) (now : ℚ) :
    saveCheckPhase vehicles store b now ≠ .error SvcErr.bookingConflict := by
  intro hcon
  unfold saveCheckPhase at hcon
  dsimp only at hcon
  rcases hfv : findVehicle vehicles b.vehicleId with _ | v <;> rw [hfv] at hcon <;>
    dsimp only at hcon <;> split_ifs at hcon <;> simp at hcon

/-- Characterization of a successful `createBooking`: the resolved window,
the inserted booking's fields, the emptiness of the conflict query, and the
shape of the store afterwards. -/
theorem createBooking_ok {vehicles : List Vehicle} {store : List Booking}
    {req : BookingRequest} {newId : Nat} {now : ℚ} {bnew : Booking}
    (h : (createBooking vehicles store req newId now).1 = .ok bnew) :
    ∃ dur e, resolveDuration req = .ok dur ∧ resolveEndTime req dur = .ok e ∧
      bnew.vehicleId = req.vehicleId ∧ bnew.startTime = req.startTime ∧
      bnew.endTime = e ∧ bnew.status = Status.confirmed ∧
      bnew.estimatedRideDurationHours = dur ∧
      findOverlappingBookings store req.vehicleId req.startTime e none = [] ∧
      (createBooking vehicles store req newId now).2 = store ++ [bnew] := by
  unfold createBooking at h ⊢
  cases hrc : runCreateChecks vehicles store req newId now with
  | error e => rw [hrc] at h; simp at h
  | ok b =>
    rw [hrc] at h
    simp only [Except.ok.injEq] at h
    subst h
    unfold runCreateChecks at hrc
    cases hcp : createCheckPhase vehicles store req newId with
    | error e => rw [hcp] at hrc; simp at hrc
    | ok b0 =>
      rw [hcp] at hrc
      dsimp only at hrc
      unfold createCheckPhase at hcp
      cases hfv : findVehicle vehicles req.vehicleId with
      | none => rw [hfv] at hcp; simp at hcp
      | some v =>
        rw [hfv] at hcp
        dsimp only at hcp
        by_cases hact : v.isActive = true
        · rw [if_neg (not_not_intro hact)] at hcp
          cases hrd : resolveDuration req with
          | error e => rw [hrd] at hcp; simp at hcp
          | ok dur =>
            rw [hrd] at hcp
            dsimp only at hcp
            cases hre : resolveEndTime req dur with
            | error e => rw [hre] at hcp; simp at hcp
            | ok eT =>
              rw [hre] at hcp
              dsimp only at hcp
              by_cases hov : (findOverlappingBookings store req.vehicleId
                  req.startTime eT none).isEmpty = true
              · rw [if_neg (not_not_intro hov)] at hcp
                simp only [Except.ok.injEq] at hcp
                subst hcp
                rw [List.isEmpty_iff] at hov
                unfold saveCheckPhase at hrc
                dsimp only at hrc
                rw [if_neg (show ¬ (Status.confirmed = Status.cancelled) by decide),
                  hfv] at hrc
                dsimp only at hrc
                by_cases hsv : bookingSchemaValid
                    { id := newId, vehicleId := req.vehicleId,
                      customerId := req.customerId,
                      fromPincode := req.fromPincode, toPincode := req.toPincode,
                      startTime := req.startTime, endTime := eT,
                      estimatedRideDurationHours := dur,
                      status := Status.confirmed, estimatedCost := req.estimatedCost,
                      actualStartTime := none, actualEndTime := none,
                      notes := req.notes } now = true
                · rw [if_neg (not_not_intro hsv), if_neg (not_not_intro hact)] at hrc
                  by_cases hov2 : (findOverlappingBookings store req.vehicleId
                      req.startTime eT (some newId)).isEmpty = true
                  · rw [if_pos hov2] at hrc
                    simp only [Except.ok.injEq] at hrc
                    subst hrc
                    exact ⟨dur, eT, rfl, hre, rfl, rfl, rfl, rfl, rfl, hov, rfl⟩
                  · rw [if_neg hov2] at hrc
                    simp at hrc
                · rw [if_pos hsv] at hrc
                  simp at hrc
              · rw [if_pos hov] at hcp
                simp at hcp
        · rw [if_pos hact] at hcp
          simp at hcp

/-- C2 (amended): `createBooking` treats as conflict candidates exactly the
bookings with status ∉ \x7bcancelled, completed\x7d (`completed` *is*
excluded): given the vehicle loads and the window resolves, the call fails
with `BookingConflict` iff some such booking overlaps the half-open window
under `s1 < e2 ∧ e1 > s2`; and a successful create preserves pairwise
non-overlap of each vehicle's bookings with status ∉ \x7bcancelled,
completed\x7d. -/
theorem c2_conflict_rules (vehicles : List Vehicle) (store : List Booking)
    (req : BookingRequest) (newId : Nat) (now : ℚ) (v : Vehicle) (dur e : ℚ)
    (hv : findVehicle vehicles req.vehicleId = some v) (hact : v.isActive = true)
    (hdur : resolveDuration req = .ok dur) (he : resolveEndTime req dur = .ok e) :
    ((createBooking vehicles store req newId now).1 = .error SvcErr.bookingConflict ↔
      ∃ b ∈ store, b.vehicleId = req.vehicleId ∧ b.status ≠ Status.cancelled ∧
        b.status ≠ Status.completed ∧ b.startTime < e ∧ b.endTime > req.startTime) ∧
    (store.Pairwise NoActiveOverlap →
      ∀ bnew, (createBooking vehicles store req newId now).1 = .ok bnew →
        ((createBooking vehicles store req newId now).2).Pairwise NoActiveOverlap) := by
  constructor
  · rw [← @findOverlapping_not_isEmpty_iff store req.vehicleId req.startTime e]
    unfold createBooking runCreateChecks createCheckPhase
    rw [hv]
    dsimp only
    rw [if_neg (not_not_intro hact), hdur]
    dsimp only
    rw [he]
    dsimp only
    by_cases hov : (findOverlappingBookings store req.vehicleId req.startTime e none).isEmpty = true
    · rw [if_neg (not_not_intro hov)]
      dsimp only
      cases hsp : saveCheckPhase vehicles store
          { id := newId, vehicleId := req.vehicleId, customerId := req.customerId,
            fromPincode := req.fromPincode, toPincode := req.toPincode,
            startTime := req.startTime, endTime := e,
            estimatedRideDurationHours := dur, status := Status.confirmed,
            estimatedCost := req.estimatedCost, actualStartTime := none,
            actualEndTime := none, notes := req.notes } now with
      | error e2 =>
        dsimp only
        constructor
        · intro hcontra
          simp only [Except.error.injEq] at hcontra
          exact absurd (hcontra ▸ hsp) (saveCheckPhase_no_conflict _ _ _ _)
        · intro hcontra
          exact absurd hov hcontra
      | ok b2 =>
        dsimp only
        constructor
        · intro hcontra
          simp at hcontra
        · intro hcontra
          exact absurd hov hcontra
    · rw [if_pos hov]
      simp only [true_iff]
      exact hov
  · intro hpw bnew hok
    obtain ⟨dur', e', hdur', he', hvid, hst, hen, _, _, hov, hstore⟩ :=
      createBooking_ok hok
    rw [hstore, List.pairwise_append]
    refine ⟨hpw, by simp, ?_⟩
    intro a ha b hb
    rw [List.mem_singleton] at hb
    subst hb
    intro hvid' hc1 hc2 hc3 hc4 hover
    exact (findOverlapping_eq_nil_iff.mp hov a ha (hvid'.trans hvid) hc1 hc2)
      ⟨hen ▸ hover.1, hst ▸ hover.2⟩

unseal Rat.mul Rat.inv Rat.add Rat.sub in
/-- C2 witness: the amended theorem at a concrete store — a *confirmed*
overlapping booking does produce `BookingConflict`. -/
theorem c2_conflict_rules_witness :
    (createBooking fleetOne [bkConfirmed] reqWinC 2 0).1 =
      .error SvcErr.bookingConflict :=
  ((c2_conflict_rules fleetOne [bkConfirmed] reqWinC 2 0 truckA 1 54000000
      rfl rfl (by decide) rfl).1).mpr
    ⟨bkConfirmed, by simp, rfl, by decide, by decide, by decide, by decide⟩

/-- C3 (amended): `createBooking` fails with `VehicleNotFound` when the
vehicle is absent and with `VehicleInactive` when it is inactive; every
failure leaves the store unchanged; on success the booking's status is
`confirmed` regardless of any caller-supplied status, its duration is the
caller-supplied value when that value is present *and nonzero* (a supplied
`0` is falsy in JS and is re-estimated), otherwise the estimator's value,
and its end time is the caller-supplied one when present, otherwise
`startTime + duration`. -/
theorem c3_create_contract (vehicles : List Vehicle) (store : List Booking)
    (req : BookingRequest) (newId : Nat) (now : ℚ) :
    (findVehicle vehicles req.vehicleId = none →
      createBooking vehicles store req newId now =
        (.error SvcErr.vehicleNotFound, store)) ∧
    (∀ v, findVehicle vehicles req.vehicleId = some v → v.isActive = false →
      createBooking vehicles store req newId now =
        (.error SvcErr.vehicleInactive, store)) ∧
    (∀ err, (createBooking vehicles store req newId now).1 = .error err →
      (createBooking vehicles store req newId now).2 = store) ∧
    (∀ bnew, (createBooking vehicles store req newId now).1 = .ok bnew →
      bnew.status = Status.confirmed ∧
      (∀ dd, req.estimatedRideDurationHours = some dd → dd ≠ 0 →
        bnew.estimatedRideDurationHours = dd) ∧
      ((req.estimatedRideDurationHours = none ∨
          req.estimatedRideDurationHours = some 0) →
        calculateEstimatedDuration req.fromPincode req.toPincode =
          .ok bnew.estimatedRideDurationHours) ∧
      (∀ e0, req.endTime = some e0 → bnew.endTime = e0) ∧
      (req.endTime = none →
        bnew.endTime = req.startTime +
          bnew.estimatedRideDurationHours * 3600000)) := by
  refine ⟨?_, ?_, ?_, ?_⟩
  · intro hnone
    unfold createBooking runCreateChecks createCheckPhase
    rw [hnone]
  · intro v hv hina
    unfold createBooking runCreateChecks createCheckPhase
    rw [hv]
    dsimp only
    rw [if_pos (show ¬ v.isActive = true by simp [hina])]
  · intro err herr
    unfold createBooking at herr ⊢
    cases hrc : runCreateChecks vehicles store req newId now with
    | error e => rfl
    | ok b => rw [hrc] at herr; dsimp only at herr; simp at herr
  · intro bnew hok
    obtain ⟨dur, e, hdur, he, _, hst, hen, hstat, hd, _, _⟩ :=
      createBooking_ok hok
    refine ⟨hstat, ?_, ?_, ?_, ?_⟩
    · intro dd hdd hne
      unfold resolveDuration at hdur
      rw [hdd] at hdur
      dsimp only at hdur
      rw [if_neg hne] at hdur
      simp only [Except.ok.injEq] at hdur
      rw [hd, ← hdur]
    · intro hcase
      unfold resolveDuration at hdur
      rcases hcase with hc | hc <;> rw [hc] at hdur <;> dsimp only at hdur
      · rw [hd]; exact hdur
      · rw [if_pos rfl] at hdur
        rw [hd]; exact hdur
    · intro e0 he0
      unfold resolveEndTime at he
      rw [he0] at he
      dsimp only at he
      simp only [Except.ok.injEq] at he
      rw [hen, ← he]
    · intro hne
      unfold resolveEndTime at he
      rw [hne] at he
      dsimp only at he
      unfold calculateEndTime at he
      split_ifs at he with hdle
      simp only [Except.ok.injEq] at he
      rw [hen, hd]
      exact he.symm

/-- C3 witness: the amended theorem at a concrete input — booking an
inactive vehicle fails with `VehicleInactive` and inserts nothing. -/
theorem c3_create_contract_witness :
    createBooking fleetOneInactive [] reqWinA 5 0 =
      (.error SvcErr.vehicleInactive, []) :=
  (c3_create_contract fleetOneInactive [] reqWinA 5 0).2.1 truckAInactive rfl rfl

/-! ## Helper lemmas about the availability sort order -/

theorem availLe_trans : ∀ a b c : AvailEntry,
    availLe a b = true → availLe b c = true → availLe a c = true := by
  intro a b c hab hbc
  simp only [availLe, Bool.or_eq_true, Bool.and_eq_true, decide_eq_true_eq] at *
  rcases hab with h1 | ⟨h1, h2⟩ <;> rcases hbc with h3 | ⟨h3, h4⟩
  · exact Or.inl (lt_trans h1 h3)
  · exact Or.inl (h3 ▸ h1)
  · exact Or.inl (h1 ▸ h3)
  · exact Or.inr ⟨h1.trans h3, le_trans h4 h2⟩

theorem availLe_total : ∀ a b : AvailEntry,
    (availLe a b || availLe b a) = true := by
  intro a b
  simp only [availLe, Bool.or_eq_true, Bool.and_eq_true, decide_eq_true_eq]
  rcases lt_trichotomy a.vehicle.capacityKg b.vehicle.capacityKg with h | h | h
  · exact Or.inl (Or.inl h)
  · rcases le_total a.vehicle.createdAt b.vehicle.createdAt with h2 | h2
    · exact Or.inr (Or.inr ⟨h.symm, h2⟩)
    · exact Or.inl (Or.inr ⟨h, h2⟩)
  · exact Or.inr (Or.inl h)

/-- C9 (amended): every successful `findAvailableVehicles` result is sorted
ascending by capacity with ties broken by most recent creation first, and
`totalSuitable` equals the number of active vehicles passing the
capacity/category filter whenever that number is nonzero — but when it is
zero the early return omits `totalSuitable` (see the counterexample). -/
theorem c9_availability_rules (vehicles : List Vehicle) (store : List Booking)
    (p : AvailParams) (r : AvailResult)
    (h : findAvailableVehicles vehicles store p = .ok r) :
    r.availableVehicles.Pairwise (fun a b =>
      a.vehicle.capacityKg < b.vehicle.capacityKg ∨
      (a.vehicle.capacityKg = b.vehicle.capacityKg ∧
        b.vehicle.createdAt ≤ a.vehicle.createdAt)) ∧
    (vehicles.filter (isSuitable p) = [] → r.totalSuitable = none) ∧
    (vehicles.filter (isSuitable p) ≠ [] →
      r.totalSuitable = some (vehicles.filter (isSuitable p)).length) := by
  unfold findAvailableVehicles at h
  cases hb : calculateEstimatedDuration p.fromPincode p.toPincode with
  | error e => rw [hb] at h; simp at h
  | ok dur =>
    rw [hb] at h
    dsimp only at h
    cases hc : calculateEndTime p.startTime dur with
    | error e => rw [hc] at h; simp at h
    | ok endT =>
      rw [hc] at h
      dsimp only at h
      by_cases hemp : (vehicles.filter (isSuitable p)).isEmpty = true
      · rw [if_pos hemp] at h
        simp only [Except.ok.injEq] at h
        subst h
        rw [List.isEmpty_iff] at hemp
        exact ⟨List.Pairwise.nil, fun _ => rfl, fun hne => absurd hemp hne⟩
      · rw [if_neg hemp] at h
        simp only [Except.ok.injEq] at h
        subst h
        refine ⟨?_, ?_, ?_⟩
        · refine List.Pairwise.imp ?_
            (List.sorted_mergeSort availLe_trans availLe_total _)
          intro a b hab
          simpa [availLe, Bool.or_eq_true, Bool.and_eq_true,
            decide_eq_true_eq] using hab
        · intro hnil
          rw [List.isEmpty_iff] at hemp
          exact absurd hnil hemp
        · intro _
          rfl

unseal Rat.mul Rat.inv Rat.add Rat.sub List.merge List.mergeSort in
/-- C9 witness: the amended theorem at a concrete fleet of two active
vehicles — the 3000 kg van sorts before the 5000 kg truck and
`totalSuitable` is 2. -/
theorem c9_availability_rules_witness :
    (availTwoResult.availableVehicles.Pairwise (fun a b =>
      a.vehicle.capacityKg < b.vehicle.capacityKg ∨
      (a.vehicle.capacityKg = b.vehicle.capacityKg ∧
        b.vehicle.createdAt ≤ a.vehicle.createdAt))) ∧
    availTwoResult.totalSuitable =
      some (fleetTwo.filter (isSuitable availReq)).length :=
  ⟨(c9_availability_rules fleetTwo [] availReq availTwoResult (by decide)).1,
   (c9_availability_rules fleetTwo [] availReq availTwoResult (by decide)).2.2
     (by decide)⟩

unseal Rat.mul Rat.inv Rat.add Rat.sub in
/-- C1: `createBooking`'s conflict-check-then-insert is **not** atomic.
Under the event-loop schedule in which two concurrent create calls for the
same vehicle with overlapping windows (`[2h,4h)` and `[2.5h,5h)`) both pass
their conflict checks before either insert commits, *both* calls succeed
and both bookings are inserted — the store ends with two overlapping
non-cancelled bookings on vehicle 1, contradicting the claimed
"exactly one success, N−1 BookingConflict failures". -/
theorem c1_race_both_creates_succeed :
    racedCreatePair fleetOne [] reqWinA reqWinB 1 2 0 =
      (.ok raceBk1, .ok raceBk2, [raceBk1, raceBk2]) ∧
    raceBk1.vehicleId = raceBk2.vehicleId ∧
    raceBk1.status ≠ Status.cancelled ∧
    raceBk2.status ≠ Status.cancelled ∧
    raceBk1.startTime < raceBk2.endTime ∧
    raceBk1.endTime > raceBk2.startTime := by
  decide

unseal Rat.mul Rat.inv Rat.add Rat.sub in
/-- C2 counterexample: a `completed` booking is *not* a conflict candidate.
With a completed booking on vehicle 1 over `[0h,10h)`, a create request for
the overlapping window `[5h,15h)` succeeds instead of failing with
`BookingConflict`, and afterwards the vehicle's bookings with status
∉ \x7bcancelled\x7d contain an overlapping pair. -/
theorem c2_completed_overlap_not_conflict :
    createBooking fleetOne [bkCompleted] reqWinC 2 0 =
      (.ok bkFromReqC, [bkCompleted, bkFromReqC]) ∧
    bkCompleted.status ≠ Status.cancelled ∧
    bkFromReqC.status ≠ Status.cancelled ∧
    bkCompleted.vehicleId = bkFromReqC.vehicleId ∧
    bkCompleted.startTime < bkFromReqC.endTime ∧
    bkCompleted.endTime > bkFromReqC.startTime ∧
    (createBooking fleetOne [bkCompleted] reqWinC 2 0).1 ≠
      .error SvcErr.bookingConflict := by
  decide

unseal Rat.mul Rat.inv Rat.add Rat.sub in
/-- C3 counterexample: a caller-supplied duration of `0` is falsy in JS, so
`estimatedRideDurationHours || calculateEstimatedDuration(...)` discards it
and the created booking stores the re-estimated 1 hour, not the supplied
value. -/
theorem c3_zero_duration_recomputed :
    createBooking fleetOne [] reqZeroDur 2 0 = (.ok bkFromZeroDur, [bkFromZeroDur]) ∧
    reqZeroDur.estimatedRideDurationHours = some 0 ∧
    bkFromZeroDur.estimatedRideDurationHours ≠ 0 := by
  decide

unseal Rat.mul Rat.inv Rat.add Rat.sub in
/-- C5 counterexample: `updateBookingStatus` with target `cancelled` on a
`completed` booking fails with `InvalidStatusTransition`, not with
`NotCancellable` as the claim states. -/
theorem c5_completed_to_cancelled_wrong_error :
    updateBookingStatus [bkCompleted] 1 Status.cancelled none 0 =
      (.error (SvcErr.invalidStatusTransition Status.completed Status.cancelled),
       [bkCompleted]) ∧
    SvcErr.invalidStatusTransition Status.completed Status.cancelled ≠
      SvcErr.notCancellable := by
  decide

unseal Rat.mul Rat.inv Rat.add Rat.sub in
/-- C7 counterexample: `"123456xyz"` is not a 6-digit numeric string, yet
`calculateEstimatedDuration` accepts it (JS `parseInt` keeps the leading
digit prefix `123456`) and returns a duration instead of failing. -/
theorem c7_trailing_garbage_accepted :
    calculateEstimatedDuration "123456xyz" "123456" = .ok (1/2) ∧
    isSixDigits "123456xyz" = false := by
  decide

unseal Rat.mul Rat.inv Rat.add Rat.sub in
/-- C8 counterexample: when no traffic factor is supplied the code applies
the default `1.2` (`options.trafficFactor || 1.2`), so the same-pincode
base of `0.5` h becomes `0.6` h — the claim's "no traffic multiplication
occurs when none is supplied" is false. -/
theorem c8_default_traffic_applied :
    calculateEstimatedDuration "110001" "110001" = .ok (1/2) ∧
    calculateEnhancedDuration "110001" "110001" {} = .ok (3/5) ∧
    (3/5 : ℚ) ≠ 1/2 := by
  decide

unseal Rat.mul Rat.inv Rat.add Rat.sub List.merge List.mergeSort in
/-- C9 counterexample: when zero vehicles meet the capacity filter,
`findAvailableVehicles` takes the early return that carries a `message` but
*no* `totalSuitable` field, so the result does not contain
`totalSuitable = 0` as the claim requires. -/
theorem c9_zero_suitable_omits_total :
    findAvailableVehicles [] [] availReq =
      .ok { availableVehicles := []
            estimatedRideDurationHours := 1/2
            totalAvailable := none
            totalSuitable := none
            message := some "No vehicles found matching capacity requirements" } ∧
    (none : Option Nat) ≠ some (([] : List Vehicle).filter (isSuitable availReq)).length := by
  decide

end FleetLink
